import Mathlib

/-!
Verification of the cbsyst carbonate-equilibrium solver (`cbsyst/carbon_fns.py`).

The file shallowly embeds the solver library:

* species quantities and equilibrium constants are exact numbers (`ℚ` for the
  purely algebraic layer, `ℝ` where the pH converter `10 ^ (-pH)` is involved);
* the duck-typed arithmetic of the Python functions (which run both on plain
  numbers and on `uncertainties` objects) is embedded as definitions generic
  over the arithmetic operations, instantiated at `ℚ`, `ℝ` and at `UD`, a
  first-order uncertain-number type mirroring the `uncertainties` package;
* the external root finder `scipy.optimize.fsolve` is opaque: each implicit
  solver is embedded as the reified call it makes (residual function, initial
  guess array, argument arrays, tolerance);
* IEEE non-finite propagation is modelled by `Option`-valued evaluators that
  return `none` exactly when a division in the source expression has a zero
  denominator.
-/

namespace Cbsyst

/-- Equilibrium-constants bundle `Ks`: a read-only record exposing the named
dissociation constants `K1`, `K2`, `KB`, `KW`. -/
structure KS (F : Type) where
  K1 : F
  K2 : F
  KB : F
  KW : F

/-- An uncertain number in the style of the `uncertainties` package: a nominal
value together with a signed first-order error term, combined by linear
(first-order) error propagation. -/
structure UD (F : Type) where
  nom : F
  err : F

instance udOne {F : Type} [Field F] : One (UD F) := ⟨⟨1, 0⟩⟩

instance udOfNatTwo {F : Type} [Field F] : OfNat (UD F) 2 := ⟨⟨2, 0⟩⟩

instance udAdd {F : Type} [Field F] : Add (UD F) :=
  ⟨fun a b => ⟨a.nom + b.nom, a.err + b.err⟩⟩

instance udSub {F : Type} [Field F] : Sub (UD F) :=
  ⟨fun a b => ⟨a.nom - b.nom, a.err - b.err⟩⟩

instance udMul {F : Type} [Field F] : Mul (UD F) :=
  ⟨fun a b => ⟨a.nom * b.nom, a.nom * b.err + a.err * b.nom⟩⟩

instance udDiv {F : Type} [Field F] : Div (UD F) :=
  ⟨fun a b => ⟨a.nom / b.nom, (a.err * b.nom - a.nom * b.err) / b.nom ^ (2 : ℕ)⟩⟩

instance udPow {F : Type} [Field F] : HPow (UD F) ℕ (UD F) :=
  ⟨fun a n => ⟨a.nom ^ n, (n : F) * a.nom ^ (n - 1) * a.err⟩⟩

/-- Modelled from the spec: the external pH converter `ch` (imported from
`cbsyst.boron_fns`, whose source is not part of this tree) maps pH to the
hydrogen-ion activity `H = 10 ^ (-pH)`.  The class lets the same solver
definitions run on every numeric carrier, as the Python code does. -/
class ChOp (F : Type) where
  ch : F → F

/-- Modelled from the spec: `ch pH = 10 ^ (-pH)` on real numbers. -/
noncomputable instance chReal : ChOp ℝ := ⟨fun pH => (10 : ℝ) ^ (-pH)⟩

/-- Modelled from the spec: `ch` on uncertain reals; the nominal value is
`10 ^ (-pH)` and the error term is scaled by the derivative
`-log 10 * 10 ^ (-pH)`, which is first-order propagation. -/
noncomputable instance chUD : ChOp (UD ℝ) :=
  ⟨fun a => ⟨(10 : ℝ) ^ (-a.nom), a.err * ((10 : ℝ) ^ (-a.nom) * -Real.log 10)⟩⟩

section Formulas

variable {F : Type} [One F] [OfNat F 2] [Add F] [Sub F] [Mul F] [Div F] [HPow F ℕ F]

/-- 1. CO2 and pH given.  Returns DIC. -/
def CO2_pH [ChOp F] (CO2 pH : F) (Ks : KS F) : F :=
  let h := ChOp.ch pH
  CO2 * (1 + Ks.K1 / h + Ks.K1 * Ks.K2 / h ^ (2 : ℕ))

/-- 6. pH and HCO3.  Returns DIC. -/
def pH_HCO3 [ChOp F] (pH HCO3 : F) (Ks : KS F) : F :=
  let h := ChOp.ch pH
  HCO3 * (1 + h / Ks.K1 + Ks.K2 / h)

/-- 7. pH and CO3.  Returns DIC. -/
def pH_CO3 [ChOp F] (pH CO3 : F) (Ks : KS F) : F :=
  let h := ChOp.ch pH
  CO3 * (1 + h / Ks.K2 + h ^ (2 : ℕ) / (Ks.K1 * Ks.K2))

/-- 8. pH and TA.  Returns CO2. -/
def pH_TA [ChOp F] (pH TA BT : F) (Ks : KS F) : F :=
  let h := ChOp.ch pH
  (TA - Ks.KB * BT / (Ks.KB + h) - Ks.KW / h + h) /
    (Ks.K1 / h + 2 * Ks.K1 * Ks.K2 / h ^ (2 : ℕ))

/-- 9. pH and DIC.  Returns CO2. -/
def pH_DIC [ChOp F] (pH DIC : F) (Ks : KS F) : F :=
  let h := ChOp.ch pH
  DIC / (1 + Ks.K1 / h + Ks.K1 * Ks.K2 / h ^ (2 : ℕ))

/-- 1.1.9.  Returns CO2. -/
def cCO2 (H DIC : F) (Ks : KS F) : F :=
  DIC / (1 + Ks.K1 / H + Ks.K1 * Ks.K2 / H ^ (2 : ℕ))

/-- 1.1.10.  Returns HCO3. -/
def cHCO3 (H DIC : F) (Ks : KS F) : F :=
  DIC / (1 + H / Ks.K1 + Ks.K2 / H)

/-- 1.1.11.  Returns CO3. -/
def cCO3 (H DIC : F) (Ks : KS F) : F :=
  DIC / (1 + H / Ks.K2 + H ^ (2 : ℕ) / (Ks.K1 * Ks.K2))

/-- 1.5.80.  Returns TA. -/
def cTA (CO2 H BT : F) (Ks : KS F) : F :=
  CO2 * (Ks.K1 / H + 2 * Ks.K1 * Ks.K2 / H ^ (2 : ℕ)) +
    BT * Ks.KB / (Ks.KB + H) + Ks.KW / H - H

end Formulas

/-- Residual of the CO2 & HCO3 solver (inner function of `CO2_HCO3`). -/
def zero_CO2_HCO3 (h CO2 HCO3 : ℚ) (Ks : KS ℚ) : ℚ :=
  let LH := CO2 * (h ^ 2 + Ks.K1 * h + Ks.K1 * Ks.K2)
  let RH := HCO3 * (h ^ 2 + h ^ 3 / Ks.K1 + Ks.K2 * h)
  LH - RH

/-- Residual of the CO2 & CO3 solver (inner function of `CO2_CO3`). -/
def zero_CO2_CO3 (h CO2 CO3 : ℚ) (Ks : KS ℚ) : ℚ :=
  let LH := CO2 * (h ^ 2 + Ks.K1 * h + Ks.K1 * Ks.K2)
  let RH := CO3 * (h ^ 2 + h ^ 3 / Ks.K2 + h ^ 4 / (Ks.K1 * Ks.K2))
  LH - RH

/-- Residual of the CO2 & TA solver (inner function of `CO2_TA`). -/
def zero_CO2_TA (h CO2 TA BT : ℚ) (Ks : KS ℚ) : ℚ :=
  let LH := TA * h ^ 2 * (Ks.KB + h)
  let RH := CO2 * (Ks.KB + h) * (Ks.K1 * h + 2 * Ks.K1 * Ks.K2) +
    h ^ 2 * Ks.KB * BT + (Ks.KB + h) * (Ks.KW * h - h ^ 3)
  LH - RH

/-- Residual of the CO2 & DIC solver (inner function of `CO2_DIC`). -/
def zero_CO2_DIC (h CO2 DIC : ℚ) (Ks : KS ℚ) : ℚ :=
  let LH := DIC * h ^ 2
  let RH := CO2 * (h ^ 2 + Ks.K1 * h + Ks.K1 * Ks.K2)
  LH - RH

/-- Residual of the HCO3 & CO3 solver (inner function of `HCO3_CO3`). -/
def zero_HCO3_CO3 (h HCO3 CO3 : ℚ) (Ks : KS ℚ) : ℚ :=
  let LH := HCO3 * (h + h ^ 2 / Ks.K1 + Ks.K2)
  let RH := CO3 * (h + h ^ 2 / Ks.K2 + h ^ 3 / (Ks.K1 * Ks.K2))
  LH - RH

/-- Residual of the HCO3 & TA solver (inner function of `HCO3_TA`). -/
def zero_HCO3_TA (h HCO3 TA BT : ℚ) (Ks : KS ℚ) : ℚ :=
  let LH := TA * (Ks.KB + h) * (h ^ 3 + Ks.K1 * h ^ 2 + Ks.K1 * Ks.K2 * h)
  let RH := HCO3 * (h + h ^ 2 / Ks.K1 + Ks.K2) *
      ((Ks.KB + 2 * Ks.K2) * Ks.K1 * h + 2 * Ks.KB * Ks.K1 * Ks.K2 + Ks.K1 * h ^ 2) +
    (h ^ 2 + Ks.K1 * h + Ks.K1 * Ks.K2) *
      (Ks.KB * BT * h + Ks.KW * Ks.KB + Ks.KW * h - Ks.KB * h ^ 2 - h ^ 3)
  LH - RH

/-- Residual of the HCO3 & DIC solver (inner function of `HCO3_DIC`). -/
def zero_HCO3_DIC (h HCO3 DIC : ℚ) (Ks : KS ℚ) : ℚ :=
  let LH := HCO3 * (h + h ^ 2 / Ks.K1 + Ks.K2)
  let RH := h * DIC
  LH - RH

/-- Residual of the CO3 & TA solver (inner function of `CO3_TA`). -/
def zero_CO3_TA (h CO3 TA BT : ℚ) (Ks : KS ℚ) : ℚ :=
  let LH := TA * (Ks.KB + h) * (h ^ 3 + Ks.K1 * h ^ 2 + Ks.K1 * Ks.K2 * h)
  let RH := CO3 * (h + h ^ 2 / Ks.K2 + h ^ 3 / (Ks.K1 * Ks.K2)) *
      (Ks.K1 * h ^ 2 + Ks.K1 * h * (Ks.KB + 2 * Ks.K2) + 2 * Ks.KB * Ks.K1 * Ks.K2) +
    (h ^ 2 + Ks.K1 * h + Ks.K1 * Ks.K2) *
      (Ks.KB * BT * h + Ks.KW * Ks.KB + Ks.KW * h - Ks.KB * h ^ 2 - h ^ 3)
  LH - RH

/-- Residual of the CO3 & DIC solver (inner function of `CO3_DIC`). -/
def zero_CO3_DIC (h CO3 DIC : ℚ) (Ks : KS ℚ) : ℚ :=
  let LH := CO3 * (1 + h / Ks.K2 + h ^ 2 / (Ks.K1 * Ks.K2))
  let RH := DIC
  LH - RH

/-- Residual of the TA & DIC solver (inner function of `TA_DIC`). -/
def zero_TA_DIC (h TA DIC BT : ℚ) (Ks : KS ℚ) : ℚ :=
  let LH := DIC * (Ks.KB + h) * (Ks.K1 * h ^ 2 + 2 * Ks.K1 * Ks.K2 * h)
  let RH := (TA * (Ks.KB + h) * h - Ks.KB * BT * h - Ks.KW * (Ks.KB + h) +
      (Ks.KB + h) * h ^ 2) *
    (h ^ 2 + Ks.K1 * h + Ks.K1 * Ks.K2)
  LH - RH

/-- Helper `lens`: maximum length (`np.size`) of the provided items; a scalar
input is a one-element array, so it counts as size 1. -/
def lens (it : List (List (UD ℚ))) : ℕ :=
  (it.map List.length).foldr max 0

/-- Helper `noms`: nominal values (`unp.nominal_values`) of each provided
object, preserving array shape. -/
def noms (it : List (List (UD ℚ))) : List (List ℚ) :=
  it.map (List.map UD.nom)

/-- Per-argument action of `noms` (the Python callers destructure its result,
one array per input). -/
def noms1 (x : List (UD ℚ)) : List ℚ :=
  List.map UD.nom x

/-- A reified call to `scipy.optimize.fsolve` for a residual with two species
arguments: the residual, the initial-guess array `x0`, the argument arrays
`a1`, `a2` and constants passed through `args`, and the tolerance `xtol`.
The root finder itself is external, so the call data is the contract. -/
structure FsolveCall2 where
  residual : ℚ → ℚ → ℚ → KS ℚ → ℚ
  x0 : List ℚ
  a1 : List ℚ
  a2 : List ℚ
  Ks : KS ℚ
  xtol : ℚ

/-- A reified `fsolve` call for a residual with three species arguments. -/
structure FsolveCall3 where
  residual : ℚ → ℚ → ℚ → ℚ → KS ℚ → ℚ
  x0 : List ℚ
  a1 : List ℚ
  a2 : List ℚ
  a3 : List ℚ
  Ks : KS ℚ
  xtol : ℚ

/-- 2. CO2 and HCO3 given.  Returns H (as the reified root-finder call). -/
def CO2_HCO3 (CO2 HCO3 : List (UD ℚ)) (Ks : KS ℚ) : FsolveCall2 :=
  ⟨zero_CO2_HCO3, List.replicate (lens [CO2, HCO3]) 1,
    noms1 CO2, noms1 HCO3, Ks, 1 / 10 ^ 12⟩

/-- 3. CO2 and CO3.  Returns H. -/
def CO2_CO3 (CO2 CO3 : List (UD ℚ)) (Ks : KS ℚ) : FsolveCall2 :=
  ⟨zero_CO2_CO3, List.replicate (lens [CO2, CO3]) 1,
    noms1 CO2, noms1 CO3, Ks, 1 / 10 ^ 12⟩

/-- 4. CO2 and TA.  Returns H. -/
def CO2_TA (CO2 TA BT : List (UD ℚ)) (Ks : KS ℚ) : FsolveCall3 :=
  ⟨zero_CO2_TA, List.replicate (lens [CO2, TA, BT]) 1,
    noms1 CO2, noms1 TA, noms1 BT, Ks, 1 / 10 ^ 12⟩

/-- 5. CO2 and DIC.  Returns H. -/
def CO2_DIC (CO2 DIC : List (UD ℚ)) (Ks : KS ℚ) : FsolveCall2 :=
  ⟨zero_CO2_DIC, List.replicate (lens [CO2, DIC]) 1,
    noms1 CO2, noms1 DIC, Ks, 1 / 10 ^ 12⟩

/-- 10. HCO3 and CO3.  Returns H. -/
def HCO3_CO3 (HCO3 CO3 : List (UD ℚ)) (Ks : KS ℚ) : FsolveCall2 :=
  ⟨zero_HCO3_CO3, List.replicate (lens [HCO3, CO3]) 1,
    noms1 HCO3, noms1 CO3, Ks, 1 / 10 ^ 12⟩

/-- 11. HCO3 and TA.  Returns H. -/
def HCO3_TA (HCO3 TA BT : List (UD ℚ)) (Ks : KS ℚ) : FsolveCall3 :=
  ⟨zero_HCO3_TA, List.replicate (lens [HCO3, TA, BT]) 1,
    noms1 HCO3, noms1 TA, noms1 BT, Ks, 1 / 10 ^ 12⟩

/-- 12. HCO3 and DIC.  Returns H.  The initial guess is 0, not 1: of the two
positive roots the smaller is the physical one. -/
def HCO3_DIC (HCO3 DIC : List (UD ℚ)) (Ks : KS ℚ) : FsolveCall2 :=
  ⟨zero_HCO3_DIC, List.replicate (lens [HCO3, DIC]) 0,
    noms1 HCO3, noms1 DIC, Ks, 1 / 10 ^ 12⟩

/-- 13. CO3 and TA.  Returns H. -/
def CO3_TA (CO3 TA BT : List (UD ℚ)) (Ks : KS ℚ) : FsolveCall3 :=
  ⟨zero_CO3_TA, List.replicate (lens [CO3, TA, BT]) 1,
    noms1 CO3, noms1 TA, noms1 BT, Ks, 1 / 10 ^ 12⟩

/-- 14. CO3 and DIC.  Returns H. -/
def CO3_DIC (CO3 DIC : List (UD ℚ)) (Ks : KS ℚ) : FsolveCall2 :=
  ⟨zero_CO3_DIC, List.replicate (lens [CO3, DIC]) 1,
    noms1 CO3, noms1 DIC, Ks, 1 / 10 ^ 12⟩

/-- 15. TA and DIC.  Returns H. -/
def TA_DIC (TA DIC BT : List (UD ℚ)) (Ks : KS ℚ) : FsolveCall3 :=
  ⟨zero_TA_DIC, List.replicate (lens [TA, DIC, BT]) 1,
    noms1 TA, noms1 DIC, noms1 BT, Ks, 1 / 10 ^ 12⟩

/-- IEEE evaluation model of `cCO2`: `none` exactly when a division in the
source expression has a zero denominator (the float evaluation then passes
through a non-finite value or raises a division warning); otherwise the exact
formula value, with the input taken as given — no clamping. -/
def cCO2q (H DIC : ℚ) (Ks : KS ℚ) : Option ℚ :=
  if H = 0 then none
  else if 1 + Ks.K1 / H + Ks.K1 * Ks.K2 / H ^ (2 : ℕ) = 0 then none
  else some (cCO2 H DIC Ks)

/-- IEEE evaluation model of `cTA`: `none` exactly when a division in the
source expression has a zero denominator; otherwise the exact formula value. -/
def cTAq (CO2 H BT : ℚ) (Ks : KS ℚ) : Option ℚ :=
  if H = 0 then none
  else if Ks.KB + H = 0 then none
  else some (cTA CO2 H BT Ks)

/-- IEEE evaluation model of `zero_CO2_HCO3`: its only division is `h^3 / K1`. -/
def zero_CO2_HCO3q (h CO2 HCO3 : ℚ) (Ks : KS ℚ) : Option ℚ :=
  if Ks.K1 = 0 then none else some (zero_CO2_HCO3 h CO2 HCO3 Ks)

/-- IEEE evaluation model of `zero_CO2_CO3`: divisions by `K2` and `K1 * K2`. -/
def zero_CO2_CO3q (h CO2 CO3 : ℚ) (Ks : KS ℚ) : Option ℚ :=
  if Ks.K2 = 0 then none
  else if Ks.K1 * Ks.K2 = 0 then none
  else some (zero_CO2_CO3 h CO2 CO3 Ks)

/-- IEEE evaluation model of `zero_CO2_TA`: the expression has no division. -/
def zero_CO2_TAq (h CO2 TA BT : ℚ) (Ks : KS ℚ) : Option ℚ :=
  some (zero_CO2_TA h CO2 TA BT Ks)

/-- IEEE evaluation model of `zero_CO2_DIC`: the expression has no division. -/
def zero_CO2_DICq (h CO2 DIC : ℚ) (Ks : KS ℚ) : Option ℚ :=
  some (zero_CO2_DIC h CO2 DIC Ks)

/-- IEEE evaluation model of `zero_HCO3_CO3`: divisions by `K1`, `K2`, `K1 * K2`. -/
def zero_HCO3_CO3q (h HCO3 CO3 : ℚ) (Ks : KS ℚ) : Option ℚ :=
  if Ks.K1 = 0 then none
  else if Ks.K2 = 0 then none
  else if Ks.K1 * Ks.K2 = 0 then none
  else some (zero_HCO3_CO3 h HCO3 CO3 Ks)

/-- IEEE evaluation model of `zero_HCO3_TA`: its only division is `h^2 / K1`. -/
def zero_HCO3_TAq (h HCO3 TA BT : ℚ) (Ks : KS ℚ) : Option ℚ :=
  if Ks.K1 = 0 then none else some (zero_HCO3_TA h HCO3 TA BT Ks)

/-- IEEE evaluation model of `zero_HCO3_DIC`: its only division is `h^2 / K1`. -/
def zero_HCO3_DICq (h HCO3 DIC : ℚ) (Ks : KS ℚ) : Option ℚ :=
  if Ks.K1 = 0 then none else some (zero_HCO3_DIC h HCO3 DIC Ks)

/-- IEEE evaluation model of `zero_CO3_TA`: divisions by `K2` and `K1 * K2`. -/
def zero_CO3_TAq (h CO3 TA BT : ℚ) (Ks : KS ℚ) : Option ℚ :=
  if Ks.K2 = 0 then none
  else if Ks.K1 * Ks.K2 = 0 then none
  else some (zero_CO3_TA h CO3 TA BT Ks)

/-- IEEE evaluation model of `zero_CO3_DIC`: divisions by `K2` and `K1 * K2`. -/
def zero_CO3_DICq (h CO3 DIC : ℚ) (Ks : KS ℚ) : Option ℚ :=
  if Ks.K2 = 0 then none
  else if Ks.K1 * Ks.K2 = 0 then none
  else some (zero_CO3_DIC h CO3 DIC Ks)

/-- IEEE evaluation model of `zero_TA_DIC`: the expression has no division. -/
def zero_TA_DICq (h TA DIC BT : ℚ) (Ks : KS ℚ) : Option ℚ :=
  some (zero_TA_DIC h TA DIC BT Ks)

/-- A concrete rational constants bundle for witnesses. -/
def Ks1 : KS ℚ := ⟨1, 1, 1, 1⟩

/-- A concrete real constants bundle for witnesses. -/
def KsR1 : KS ℝ := ⟨1, 1, 1, 1⟩

/-- A concrete uncertain-rational constants bundle (no attached error). -/
def KsU1 : KS (UD ℚ) := ⟨⟨1, 0⟩, ⟨1, 0⟩, ⟨1, 0⟩, ⟨1, 0⟩⟩

/-- A concrete uncertain-real constants bundle (no attached error). -/
def KsUR1 : KS (UD ℝ) := ⟨⟨1, 0⟩, ⟨1, 0⟩, ⟨1, 0⟩, ⟨1, 0⟩⟩

section UDLemmas

variable {F : Type} [Field F]

theorem ud_one_eq : (1 : UD F) = ⟨1, 0⟩ := rfl

theorem ud_two_eq : (2 : UD F) = ⟨2, 0⟩ := rfl

theorem ud_add_mk (a b c d : F) : (UD.mk a b) + (UD.mk c d) = ⟨a + c, b + d⟩ := rfl

theorem ud_sub_mk (a b c d : F) : (UD.mk a b) - (UD.mk c d) = ⟨a - c, b - d⟩ := rfl

theorem ud_mul_mk (a b c d : F) :
    (UD.mk a b) * (UD.mk c d) = ⟨a * c, a * d + b * c⟩ := rfl

theorem ud_div_mk (a b c d : F) :
    (UD.mk a b) / (UD.mk c d) = ⟨a / c, (b * c - a * d) / c ^ (2 : ℕ)⟩ := rfl

theorem ud_pow_mk (a b : F) (n : ℕ) :
    (UD.mk a b) ^ n = ⟨a ^ n, (n : F) * a ^ (n - 1) * b⟩ := rfl

end UDLemmas

theorem ud_err_mk {F : Type} (a b : F) : (UD.mk a b).err = b := rfl

theorem ud_nom_mk {F : Type} (a b : F) : (UD.mk a b).nom = a := rfl

theorem ud_ch_mk (a b : ℝ) :
    ChOp.ch (UD.mk a b) = ⟨(10 : ℝ) ^ (-a), b * ((10 : ℝ) ^ (-a) * -Real.log 10)⟩ := rfl

/-- Claim C1: `pH_TA` is the direct closed form
`CO2 = (TA - KB*BT/(KB+H) - KW/H + H) / (K1/H + 2*K1*K2/H^2)` with
`H = 10 ^ (-pH)` supplied by the external converter `ch`; definitional
equality shows there is no iteration and no other computation. -/
theorem pH_TA_direct_formula (pH TA BT : ℝ) (Ks : KS ℝ) :
    pH_TA pH TA BT Ks =
      (TA - Ks.KB * BT / (Ks.KB + (10 : ℝ) ^ (-pH)) - Ks.KW / (10 : ℝ) ^ (-pH) +
          (10 : ℝ) ^ (-pH)) /
        (Ks.K1 / (10 : ℝ) ^ (-pH) + 2 * Ks.K1 * Ks.K2 / ((10 : ℝ) ^ (-pH)) ^ (2 : ℕ)) := rfl

/-- Claim C4: the residual solved by `HCO3_TA` is exactly the HCO3 & TA
equation of the spec (stated for every input, in particular whenever `K1` and
`K2` are nonzero). -/
theorem zero_HCO3_TA_eq_spec (h HCO3 TA BT : ℚ) (Ks : KS ℚ) :
    zero_HCO3_TA h HCO3 TA BT Ks =
      TA * (Ks.KB + h) * (h ^ 3 + Ks.K1 * h ^ 2 + Ks.K1 * Ks.K2 * h) -
        (HCO3 * (h + h ^ 2 / Ks.K1 + Ks.K2) *
            ((Ks.KB + 2 * Ks.K2) * Ks.K1 * h + 2 * Ks.KB * Ks.K1 * Ks.K2 + Ks.K1 * h ^ 2) +
          (h ^ 2 + Ks.K1 * h + Ks.K1 * Ks.K2) *
            (Ks.KB * BT * h + Ks.KW * Ks.KB + Ks.KW * h - Ks.KB * h ^ 2 - h ^ 3)) := rfl

/-- Claim C5: every implicit solver calls the root finder with initial-guess
array `replicate L 1` — `L` the maximum element count of its inputs, scalars
counting as 1 — except `HCO3_DIC`, which uses `replicate L 0`; every call
passes tolerance `1e-12`. -/
theorem implicit_solvers_guess_and_xtol :
    (∀ (a b : List (UD ℚ)) (Ks : KS ℚ),
      (CO2_HCO3 a b Ks).x0 = List.replicate (lens [a, b]) 1 ∧
        (CO2_HCO3 a b Ks).xtol = 1 / 10 ^ 12) ∧
    (∀ (a b : List (UD ℚ)) (Ks : KS ℚ),
      (CO2_CO3 a b Ks).x0 = List.replicate (lens [a, b]) 1 ∧
        (CO2_CO3 a b Ks).xtol = 1 / 10 ^ 12) ∧
    (∀ (a b c : List (UD ℚ)) (Ks : KS ℚ),
      (CO2_TA a b c Ks).x0 = List.replicate (lens [a, b, c]) 1 ∧
        (CO2_TA a b c Ks).xtol = 1 / 10 ^ 12) ∧
    (∀ (a b : List (UD ℚ)) (Ks : KS ℚ),
      (CO2_DIC a b Ks).x0 = List.replicate (lens [a, b]) 1 ∧
        (CO2_DIC a b Ks).xtol = 1 / 10 ^ 12) ∧
    (∀ (a b : List (UD ℚ)) (Ks : KS ℚ),
      (HCO3_CO3 a b Ks).x0 = List.replicate (lens [a, b]) 1 ∧
        (HCO3_CO3 a b Ks).xtol = 1 / 10 ^ 12) ∧
    (∀ (a b c : List (UD ℚ)) (Ks : KS ℚ),
      (HCO3_TA a b c Ks).x0 = List.replicate (lens [a, b, c]) 1 ∧
        (HCO3_TA a b c Ks).xtol = 1 / 10 ^ 12) ∧
    (∀ (a b : List (UD ℚ)) (Ks : KS ℚ),
      (HCO3_DIC a b Ks).x0 = List.replicate (lens [a, b]) 0 ∧
        (HCO3_DIC a b Ks).xtol = 1 / 10 ^ 12) ∧
    (∀ (a b c : List (UD ℚ)) (Ks : KS ℚ),
      (CO3_TA a b c Ks).x0 = List.replicate (lens [a, b, c]) 1 ∧
        (CO3_TA a b c Ks).xtol = 1 / 10 ^ 12) ∧
    (∀ (a b : List (UD ℚ)) (Ks : KS ℚ),
      (CO3_DIC a b Ks).x0 = List.replicate (lens [a, b]) 1 ∧
        (CO3_DIC a b Ks).xtol = 1 / 10 ^ 12) ∧
    (∀ (a b c : List (UD ℚ)) (Ks : KS ℚ),
      (TA_DIC a b c Ks).x0 = List.replicate (lens [a, b, c]) 1 ∧
        (TA_DIC a b c Ks).xtol = 1 / 10 ^ 12) :=
  ⟨fun _ _ _ => ⟨rfl, rfl⟩, fun _ _ _ => ⟨rfl, rfl⟩, fun _ _ _ _ => ⟨rfl, rfl⟩,
    fun _ _ _ => ⟨rfl, rfl⟩, fun _ _ _ => ⟨rfl, rfl⟩, fun _ _ _ _ => ⟨rfl, rfl⟩,
    fun _ _ _ => ⟨rfl, rfl⟩, fun _ _ _ _ => ⟨rfl, rfl⟩, fun _ _ _ => ⟨rfl, rfl⟩,
    fun _ _ _ _ => ⟨rfl, rfl⟩⟩

/-- Claim C6: `CO3_DIC` starts the root finder from the default guess array
`replicate L 1` (not from a negative value, despite its inline comment), its
residual is exactly `CO3 * (1 + h/K2 + h^2/(K1*K2)) - DIC`, and it passes
tolerance `1e-12`; so the returned H is whatever root the external solver
reaches from the all-ones guess. -/
theorem CO3_DIC_uses_default_guess :
    (∀ (a b : List (UD ℚ)) (Ks : KS ℚ),
      (CO3_DIC a b Ks).x0 = List.replicate (lens [a, b]) 1 ∧
        (CO3_DIC a b Ks).residual = zero_CO3_DIC ∧
        (CO3_DIC a b Ks).xtol = 1 / 10 ^ 12) ∧
    (∀ (h CO3 DIC : ℚ) (Ks : KS ℚ),
      zero_CO3_DIC h CO3 DIC Ks =
        CO3 * (1 + h / Ks.K2 + h ^ 2 / (Ks.K1 * Ks.K2)) - DIC) :=
  ⟨fun _ _ _ => ⟨rfl, rfl, rfl⟩, fun _ _ _ _ => rfl⟩

/-- Claim C2: for every `H > 0`, `DIC`, and constants `K1 > 0`, `K2 > 0`, the
three concentration converters conserve carbon exactly:
`cCO2 + cHCO3 + cCO3 = DIC`. -/
theorem converters_conserve_DIC (H DIC : ℚ) (Ks : KS ℚ)
    (hH : 0 < H) (hK1 : 0 < Ks.K1) (hK2 : 0 < Ks.K2) :
    cCO2 H DIC Ks + cHCO3 H DIC Ks + cCO3 H DIC Ks = DIC := by
  have hH0 : H ≠ 0 := hH.ne'
  have hK10 : Ks.K1 ≠ 0 := hK1.ne'
  have hK20 : Ks.K2 ≠ 0 := hK2.ne'
  have hP : H ^ (2 : ℕ) + Ks.K1 * H + Ks.K1 * Ks.K2 ≠ 0 :=
    (add_pos (add_pos (pow_pos hH 2) (mul_pos hK1 hH)) (mul_pos hK1 hK2)).ne'
  simp only [cCO2, cHCO3, cCO3]
  field_simp
  ring

/-- Witness for claim C2 at `H = DIC = 1` and unit constants. -/
theorem converters_conserve_DIC_w :
    cCO2 1 1 Ks1 + cHCO3 1 1 Ks1 + cCO3 1 1 Ks1 = 1 :=
  converters_conserve_DIC 1 1 Ks1 one_pos one_pos one_pos

/-- Claim C3: feeding the DIC returned by `CO2_pH` back into `pH_DIC` with the
same pH recovers the original CO2 exactly, for every `CO2`, `pH` and positive
`K1`, `K2` (the hydrogen-ion activity `10 ^ (-pH)` is positive for every pH). -/
theorem pH_DIC_CO2_pH_roundtrip (CO2 pH : ℝ) (Ks : KS ℝ)
    (hK1 : 0 < Ks.K1) (hK2 : 0 < Ks.K2) :
    pH_DIC pH (CO2_pH CO2 pH Ks) Ks = CO2 := by
  have hh : (0 : ℝ) < ChOp.ch pH := by
    show (0 : ℝ) < (10 : ℝ) ^ (-pH)
    exact Real.rpow_pos_of_pos (by norm_num) (-pH)
  have hD : (0 : ℝ) < 1 + Ks.K1 / ChOp.ch pH + Ks.K1 * Ks.K2 / ChOp.ch pH ^ (2 : ℕ) := by
    have h1 : (0 : ℝ) < Ks.K1 / ChOp.ch pH := div_pos hK1 hh
    have h2 : (0 : ℝ) < Ks.K1 * Ks.K2 / ChOp.ch pH ^ (2 : ℕ) :=
      div_pos (mul_pos hK1 hK2) (pow_pos hh 2)
    linarith
  show CO2 * (1 + Ks.K1 / ChOp.ch pH + Ks.K1 * Ks.K2 / ChOp.ch pH ^ (2 : ℕ)) /
      (1 + Ks.K1 / ChOp.ch pH + Ks.K1 * Ks.K2 / ChOp.ch pH ^ (2 : ℕ)) = CO2
  exact mul_div_cancel_right₀ CO2 hD.ne'

/-- Witness for claim C3 at `CO2 = 1`, `pH = 0` and unit constants. -/
theorem pH_DIC_CO2_pH_roundtrip_w :
    pH_DIC (0 : ℝ) (CO2_pH 1 0 KsR1) KsR1 = 1 :=
  pH_DIC_CO2_pH_roundtrip 1 0 KsR1 one_pos one_pos

/-- Claim C9: the `CO2_TA` residual is the polynomial multiple
`h^2 * (KB + h) * (TA - cTA)` of the `cTA` reconstruction error, so (under the
same nonvanishing conditions) it vanishes exactly when `cTA` at that `h`
reconstructs the given TA. -/
theorem zero_CO2_TA_factors (h CO2 TA BT : ℚ) (Ks : KS ℚ)
    (h0 : h ≠ 0) (hKB : Ks.KB + h ≠ 0) :
    zero_CO2_TA h CO2 TA BT Ks = h ^ 2 * (Ks.KB + h) * (TA - cTA CO2 h BT Ks) ∧
    (zero_CO2_TA h CO2 TA BT Ks = 0 ↔ cTA CO2 h BT Ks = TA) := by
  have key : zero_CO2_TA h CO2 TA BT Ks =
      h ^ 2 * (Ks.KB + h) * (TA - cTA CO2 h BT Ks) := by
    simp only [zero_CO2_TA, cTA]
    field_simp
    ring
  refine ⟨key, ?_⟩
  rw [key]
  have hf : h ^ 2 * (Ks.KB + h) ≠ 0 := mul_ne_zero (pow_ne_zero 2 h0) hKB
  constructor
  · intro hz
    rcases mul_eq_zero.mp hz with h1 | h2
    · exact absurd h1 hf
    · exact (sub_eq_zero.mp h2).symm
  · intro he
    rw [he]
    ring

/-- Witness for claim C9 at `h = CO2 = TA = BT = 1` and unit constants. -/
theorem zero_CO2_TA_factors_w :
    zero_CO2_TA 1 1 1 1 Ks1 = 1 ^ 2 * (Ks1.KB + 1) * (1 - cTA 1 1 1 Ks1) ∧
    (zero_CO2_TA 1 1 1 1 Ks1 = 0 ↔ cTA 1 1 1 Ks1 = 1) :=
  zero_CO2_TA_factors 1 1 1 1 Ks1 one_ne_zero (by norm_num [Ks1])

/-- Claim C10: every one of the ten residuals divides only by the constants
`K1`, `K2` or `K1 * K2`, never by the unknown `h`: whenever `K1 ≠ 0` and
`K2 ≠ 0` the division-checked evaluation succeeds for every `h` (including
the initial guesses `0` and `1`) and returns the plain residual value. -/
theorem residuals_total_in_h (h a b c : ℚ) (Ks : KS ℚ)
    (hK1 : Ks.K1 ≠ 0) (hK2 : Ks.K2 ≠ 0) :
    zero_CO2_HCO3q h a b Ks = some (zero_CO2_HCO3 h a b Ks) ∧
    zero_CO2_CO3q h a b Ks = some (zero_CO2_CO3 h a b Ks) ∧
    zero_CO2_TAq h a b c Ks = some (zero_CO2_TA h a b c Ks) ∧
    zero_CO2_DICq h a b Ks = some (zero_CO2_DIC h a b Ks) ∧
    zero_HCO3_CO3q h a b Ks = some (zero_HCO3_CO3 h a b Ks) ∧
    zero_HCO3_TAq h a b c Ks = some (zero_HCO3_TA h a b c Ks) ∧
    zero_HCO3_DICq h a b Ks = some (zero_HCO3_DIC h a b Ks) ∧
    zero_CO3_TAq h a b c Ks = some (zero_CO3_TA h a b c Ks) ∧
    zero_CO3_DICq h a b Ks = some (zero_CO3_DIC h a b Ks) ∧
    zero_TA_DICq h a b c Ks = some (zero_TA_DIC h a b c Ks) := by
  have hK12 : Ks.K1 * Ks.K2 ≠ 0 := mul_ne_zero hK1 hK2
  refine ⟨?_, ?_, rfl, rfl, ?_, ?_, ?_, ?_, ?_, rfl⟩ <;>
    simp [zero_CO2_HCO3q, zero_CO2_CO3q, zero_HCO3_CO3q, zero_HCO3_TAq,
      zero_HCO3_DICq, zero_CO3_TAq, zero_CO3_DICq, hK1, hK2, hK12]

/-- Witness for claim C10 at the initial guess `h = 0` and unit constants. -/
theorem residuals_total_in_h_w :
    zero_CO2_HCO3q 0 1 1 Ks1 = some (zero_CO2_HCO3 0 1 1 Ks1) :=
  (residuals_total_in_h 0 1 1 1 Ks1 one_ne_zero one_ne_zero).1

/-- Claim C7: every implicit solver passes the root finder the `noms`-stripped
nominal values of all its species inputs, while the direct-formula solvers and
concentration converters never strip: run on uncertainty-carrying inputs they
propagate the attached uncertainty through the pure arithmetic (each one maps
an input with a nonzero error term to an output with a nonzero error term,
which `noms` would have annihilated). -/
theorem noms_only_before_root_finding :
    (∀ (a b : List (UD ℚ)) (Ks : KS ℚ),
      [(CO2_HCO3 a b Ks).a1, (CO2_HCO3 a b Ks).a2] = noms [a, b]) ∧
    (∀ (a b : List (UD ℚ)) (Ks : KS ℚ),
      [(CO2_CO3 a b Ks).a1, (CO2_CO3 a b Ks).a2] = noms [a, b]) ∧
    (∀ (a b c : List (UD ℚ)) (Ks : KS ℚ),
      [(CO2_TA a b c Ks).a1, (CO2_TA a b c Ks).a2, (CO2_TA a b c Ks).a3] =
        noms [a, b, c]) ∧
    (∀ (a b : List (UD ℚ)) (Ks : KS ℚ),
      [(CO2_DIC a b Ks).a1, (CO2_DIC a b Ks).a2] = noms [a, b]) ∧
    (∀ (a b : List (UD ℚ)) (Ks : KS ℚ),
      [(HCO3_CO3 a b Ks).a1, (HCO3_CO3 a b Ks).a2] = noms [a, b]) ∧
    (∀ (a b c : List (UD ℚ)) (Ks : KS ℚ),
      [(HCO3_TA a b c Ks).a1, (HCO3_TA a b c Ks).a2, (HCO3_TA a b c Ks).a3] =
        noms [a, b, c]) ∧
    (∀ (a b : List (UD ℚ)) (Ks : KS ℚ),
      [(HCO3_DIC a b Ks).a1, (HCO3_DIC a b Ks).a2] = noms [a, b]) ∧
    (∀ (a b c : List (UD ℚ)) (Ks : KS ℚ),
      [(CO3_TA a b c Ks).a1, (CO3_TA a b c Ks).a2, (CO3_TA a b c Ks).a3] =
        noms [a, b, c]) ∧
    (∀ (a b : List (UD ℚ)) (Ks : KS ℚ),
      [(CO3_DIC a b Ks).a1, (CO3_DIC a b Ks).a2] = noms [a, b]) ∧
    (∀ (a b c : List (UD ℚ)) (Ks : KS ℚ),
      [(TA_DIC a b c Ks).a1, (TA_DIC a b c Ks).a2, (TA_DIC a b c Ks).a3] =
        noms [a, b, c]) ∧
    (cCO2 (F := UD ℚ) ⟨1, 0⟩ ⟨1, 1⟩ KsU1).err ≠ 0 ∧
    (cHCO3 (F := UD ℚ) ⟨1, 0⟩ ⟨1, 1⟩ KsU1).err ≠ 0 ∧
    (cCO3 (F := UD ℚ) ⟨1, 0⟩ ⟨1, 1⟩ KsU1).err ≠ 0 ∧
    (cTA (F := UD ℚ) ⟨1, 1⟩ ⟨1, 0⟩ ⟨1, 0⟩ KsU1).err ≠ 0 ∧
    (CO2_pH (F := UD ℝ) ⟨1, 1⟩ ⟨0, 0⟩ KsUR1).err ≠ 0 ∧
    (pH_HCO3 (F := UD ℝ) ⟨0, 0⟩ ⟨1, 1⟩ KsUR1).err ≠ 0 ∧
    (pH_CO3 (F := UD ℝ) ⟨0, 0⟩ ⟨1, 1⟩ KsUR1).err ≠ 0 ∧
    (pH_TA (F := UD ℝ) ⟨0, 0⟩ ⟨1, 1⟩ ⟨1, 0⟩ KsUR1).err ≠ 0 ∧
    (pH_DIC (F := UD ℝ) ⟨0, 0⟩ ⟨1, 1⟩ KsUR1).err ≠ 0 := by
  refine ⟨fun _ _ _ => rfl, fun _ _ _ => rfl, fun _ _ _ _ => rfl, fun _ _ _ => rfl,
    fun _ _ _ => rfl, fun _ _ _ _ => rfl, fun _ _ _ => rfl, fun _ _ _ _ => rfl,
    fun _ _ _ => rfl, fun _ _ _ _ => rfl, ?_, ?_, ?_, ?_, ?_, ?_, ?_, ?_, ?_⟩ <;>
    · simp only [cCO2, cHCO3, cCO3, cTA, CO2_pH, pH_HCO3, pH_CO3, pH_TA, pH_DIC,
        KsU1, KsUR1, ud_ch_mk, neg_zero, Real.rpow_zero, ud_one_eq, ud_two_eq,
        ud_add_mk, ud_sub_mk, ud_mul_mk, ud_div_mk, ud_pow_mk, ud_err_mk]
      norm_num

/-- Witness for claim C5: concrete scalar (singleton) inputs give a length-1
all-ones guess for `CO2_HCO3` and the `1e-12` tolerance. -/
theorem implicit_solvers_guess_and_xtol_w :
    (CO2_HCO3 [⟨1, 0⟩] [⟨1, 0⟩] Ks1).x0 =
        List.replicate (lens [[⟨1, 0⟩], [⟨1, 0⟩]]) 1 ∧
      (CO2_HCO3 [⟨1, 0⟩] [⟨1, 0⟩] Ks1).xtol = 1 / 10 ^ 12 :=
  implicit_solvers_guess_and_xtol.1 [⟨1, 0⟩] [⟨1, 0⟩] Ks1

/-- Witness for claim C6: concrete scalar inputs to `CO3_DIC` give the default
all-ones guess, the `zero_CO3_DIC` residual and the `1e-12` tolerance. -/
theorem CO3_DIC_uses_default_guess_w :
    (CO3_DIC [⟨1, 0⟩] [⟨1, 0⟩] Ks1).x0 =
        List.replicate (lens [[⟨1, 0⟩], [⟨1, 0⟩]]) 1 ∧
      (CO3_DIC [⟨1, 0⟩] [⟨1, 0⟩] Ks1).residual = zero_CO3_DIC ∧
      (CO3_DIC [⟨1, 0⟩] [⟨1, 0⟩] Ks1).xtol = 1 / 10 ^ 12 :=
  CO3_DIC_uses_default_guess.1 [⟨1, 0⟩] [⟨1, 0⟩] Ks1

/-- Witness for claim C7: `CO2_HCO3` at concrete uncertain inputs passes the
root finder exactly the `noms`-stripped values. -/
theorem noms_only_before_root_finding_w :
    [(CO2_HCO3 [⟨1, 1⟩] [⟨2, 1⟩] Ks1).a1, (CO2_HCO3 [⟨1, 1⟩] [⟨2, 1⟩] Ks1).a2] =
      noms [[⟨1, 1⟩], [⟨2, 1⟩]] :=
  noms_only_before_root_finding.1 [⟨1, 1⟩] [⟨2, 1⟩] Ks1

/-- Counterexample to claim C8: the non-physical input `H = -1 < 0` to `cCO2`
(with unit constants and `DIC = 1`) produces the ordinary finite value `1` —
no division by zero occurs, so no non-finite value and no domain-error signal
arises, contradicting the claim that every non-physical input yields one. -/
theorem nonphysical_input_finite_result :
    (-1 : ℚ) < 0 ∧ cCO2q (-1) 1 Ks1 = some 1 ∧ cCO2q (-1) 1 Ks1 ≠ none := by
  have h2 : cCO2q (-1) 1 Ks1 = some 1 := by norm_num [cCO2q, cCO2, Ks1]
  exact ⟨by norm_num, h2, by rw [h2]; exact Option.some_ne_none 1⟩

/-- Claim C8 (amended): inputs are never silently clamped — whenever no
division in the expression has a zero denominator, the converter returns
exactly the formula value at the inputs as given, physical or not; `H = 0`
makes a zero-denominator division and so propagates a non-finite value or
division signal; but other non-physical inputs (negative `H`, negative
concentrations) generally produce ordinary finite values with no error. -/
theorem nonphysical_inputs_not_clamped :
    (∀ (DIC : ℚ) (Ks : KS ℚ), cCO2q 0 DIC Ks = none) ∧
    (∀ (CO2 BT : ℚ) (Ks : KS ℚ), cTAq CO2 0 BT Ks = none) ∧
    (∀ (H DIC : ℚ) (Ks : KS ℚ), H ≠ 0 →
      1 + Ks.K1 / H + Ks.K1 * Ks.K2 / H ^ (2 : ℕ) ≠ 0 →
      cCO2q H DIC Ks = some (cCO2 H DIC Ks)) ∧
    (∀ (CO2 H BT : ℚ) (Ks : KS ℚ), H ≠ 0 → Ks.KB + H ≠ 0 →
      cTAq CO2 H BT Ks = some (cTA CO2 H BT Ks)) := by
  refine ⟨fun DIC Ks => ?_, fun CO2 BT Ks => ?_, fun H DIC Ks h1 h2 => ?_,
    fun CO2 H BT Ks h1 h2 => ?_⟩
  · simp [cCO2q]
  · simp [cTAq]
  · simp [cCO2q, h1, h2]
  · simp [cTAq, h1, h2]

/-- Witness for the amended claim C8: at the non-physical `H = -1` the checked
evaluation succeeds and returns the unclamped formula value. -/
theorem nonphysical_inputs_not_clamped_w :
    cCO2q (-1) 1 Ks1 = some (cCO2 (-1) 1 Ks1) :=
  nonphysical_inputs_not_clamped.2.2.1 (-1) 1 Ks1 (by norm_num) (by norm_num [Ks1])

end Cbsyst
